import Mathlib

/-!
Verification of the workflow execution/status tracking slice of the
Tambo Browser Search Engine repository.

The embedding follows two source files:
* `components/generative/WorkflowExecutor.tsx` — the polling tracker
  component (`fetchStatus`, the polling `useEffect`, `handleCancel`,
  `handleRetry`, the step/status icon records and the progress header);
* `components/interactable/WorkflowLibrary.tsx` — the library view
  (`loadWorkflows` with its in-flight guard, `handleDeleteWorkflow`,
  the per-card step header).

TypeScript runtime values are embedded directly: status fields are the
raw strings the JSON carries (the TS interfaces only annotate them),
`fetch` outcomes are a promise-like sum (rejection, or resolution with
an `ok` flag and a body), and JavaScript truthiness of strings (empty
string is falsy) is modelled explicitly where the code relies on it.
-/

namespace WorkflowTracker

/-- Outcome of a `fetch` call: the promise rejects with a message, or
resolves carrying `response.ok` and a parsed body. -/
inductive HttpResult (α : Type) where
  | reject (msg : String)
  | resolve (ok : Bool) (body : α)
  deriving Repr, DecidableEq

/-- An HTTP request the client issues (method and URL). -/
structure Request where
  method : String
  url : String
  deriving Repr, DecidableEq

/-- JavaScript `a || d` on an optional string: `undefined` and `""` are
falsy. -/
def jsOrStr (a : Option String) (d : String) : String :=
  match a with
  | none => d
  | some s => if s == "" then d else s

/-- `StepStatus` from WorkflowExecutor.tsx: one step of a workflow.
The `status` field is kept as the raw string carried by the JSON
payload (the TS annotation is not a runtime check). -/
structure StepStatus where
  index : Nat
  type : String
  title : String
  description : Option String
  status : String
  error : Option String
  durationMs : Option Nat
  hasOutput : Option Bool
  deriving Repr, DecidableEq

/-- `WorkflowStatus` from WorkflowExecutor.tsx: the status snapshot
returned by `GET /api/workflows/{id}/status`. -/
structure WorkflowStatus where
  workflowId : String
  title : String
  description : Option String
  query : String
  status : String
  currentStep : Nat
  totalSteps : Nat
  progress : Nat
  steps : List StepStatus
  outputFormat : Option String
  errorMessage : Option String
  failedStep : Option Nat
  reportId : Option String
  reportTitle : Option String
  createdAt : String
  completedAt : Option String
  deriving Repr, DecidableEq

/-- The React state of one `WorkflowExecutor` instance: the cached
status snapshot, the expanded-step selection, the `polling` flag, the
`error` message, and whether `intervalRef` currently holds a live
interval timer. -/
structure ExecutorState where
  workflowStatus : Option WorkflowStatus
  expandedStep : Option Nat
  polling : Bool
  error : Option String
  timerActive : Bool
  deriving Repr, DecidableEq

/-- Initial state of the component: no snapshot, nothing expanded,
`polling` starts `true`, no error, no timer installed yet. -/
def initialExecutorState : ExecutorState :=
  { workflowStatus := none
    expandedStep := none
    polling := true
    error := none
    timerActive := false }

/-- `useTamboStreamStatus` result consumed by the component. -/
structure StreamStatus where
  isSuccess : Bool
  isError : Bool
  deriving Repr, DecidableEq

/-- Line 109: `!streamStatus.isSuccess && !streamStatus.isError`. -/
def isStreaming (st : StreamStatus) : Bool :=
  !st.isSuccess && !st.isError

/-- `GET /api/workflows/{id}/status`. -/
def statusRequest (wid : String) : Request :=
  { method := "GET", url := "/api/workflows/" ++ wid ++ "/status" }

/-- `POST /api/workflows/{id}/cancel`. -/
def cancelRequest (wid : String) : Request :=
  { method := "POST", url := "/api/workflows/" ++ wid ++ "/cancel" }

/-- `POST /api/workflows/{id}/retry`. -/
def retryRequest (wid : String) : Request :=
  { method := "POST", url := "/api/workflows/" ++ wid ++ "/retry" }

/-- `fetchStatus` (lines 112–128), result-application part: on a
resolved `ok` response the parsed snapshot is cached and the error
cleared, and `polling` is switched off when the snapshot is terminal
(`completed` or `failed`); a non-ok response throws
`'Failed to fetch status'` which the catch turns into the error state;
a rejected fetch stores its message as the error. -/
def fetchStatusApply (s : ExecutorState) (r : HttpResult WorkflowStatus) :
    ExecutorState :=
  match r with
  | .resolve true data =>
      { s with
        workflowStatus := some data
        error := none
        polling :=
          if data.status == "completed" || data.status == "failed" then
            false
          else s.polling }
  | .resolve false _ => { s with error := some "Failed to fetch status" }
  | .reject msg => { s with error := some msg }

/-- Body of the polling `useEffect` (lines 131–145): bail out while
streaming or when the workflow id is empty (doing nothing and issuing
no request); otherwise issue the initial status fetch and install the
interval timer exactly when `polling` is set. -/
def effectBody (streaming : Bool) (wid : String) (s : ExecutorState) :
    ExecutorState × List Request :=
  if streaming || wid == "" then (s, [])
  else ({ s with timerActive := s.polling }, [statusRequest wid])

/-- The effect's cleanup (lines 142–144): clear the interval timer if
one is installed. -/
def effectCleanup (s : ExecutorState) : ExecutorState :=
  { s with timerActive := false }

/-- A dependency of the effect changed: React runs the previous
cleanup, then the effect body again. -/
def rerunEffect (streaming : Bool) (wid : String) (s : ExecutorState) :
    ExecutorState × List Request :=
  effectBody streaming wid (effectCleanup s)

/-- One firing of the interval timer: it issues a status fetch exactly
when a live timer is installed. -/
def timerTick (wid : String) (s : ExecutorState) : List Request :=
  if s.timerActive then [statusRequest wid] else []

/-- `handleCancel` (lines 148–155): always issue the cancel POST; when
it resolves, trigger one immediate status fetch; when it rejects, only
log. The component state is untouched either way. -/
def handleCancel (wid : String) (s : ExecutorState) (postResolved : Bool) :
    ExecutorState × List Request :=
  if postResolved then (s, [cancelRequest wid, statusRequest wid])
  else (s, [cancelRequest wid])

/-- `handleRetry` (lines 157–165): always issue the retry POST; when it
resolves, set `polling` back to `true` and trigger one immediate status
fetch; when it rejects, only log and change nothing. -/
def handleRetry (wid : String) (s : ExecutorState) (postResolved : Bool) :
    ExecutorState × List Request :=
  if postResolved then
    ({ s with polling := true }, [retryRequest wid, statusRequest wid])
  else (s, [retryRequest wid])

/-- A workflow snapshot with a terminal `completed` status, as returned
once every step has run. -/
def wsCompleted : WorkflowStatus :=
  { workflowId := "wf_1"
    title := "Research Workflow"
    description := none
    query := "top 5 AI coding tools"
    status := "completed"
    currentStep := 4
    totalSteps := 5
    progress := 100
    steps := []
    outputFormat := some "comparison"
    errorMessage := none
    failedStep := none
    reportId := some "r_9"
    reportTitle := some "Comparison Report"
    createdAt := "2026-01-01T00:00:00Z"
    completedAt := some "2026-01-01T00:05:00Z" }

/-- C1: applying a fetched snapshot whose status is `completed` or
`failed` turns the `polling` flag off, and the effect re-run this state
change triggers leaves the interval timer cleared, so a subsequent
timer tick issues no status fetch. -/
theorem c1_terminal_status_settles_polling (s : ExecutorState)
    (data : WorkflowStatus) (streaming : Bool) (wid : String)
    (h : data.status = "completed" ∨ data.status = "failed") :
    (fetchStatusApply s (HttpResult.resolve true data)).polling = false ∧
    ((rerunEffect streaming wid
        (fetchStatusApply s (HttpResult.resolve true data))).1.timerActive
      = false) ∧
    timerTick wid
        (rerunEffect streaming wid
          (fetchStatusApply s (HttpResult.resolve true data))).1 = [] := by
  have hpoll :
      (fetchStatusApply s (HttpResult.resolve true data)).polling = false := by
    rcases h with h | h <;> simp [fetchStatusApply, h]
  have htimer :
      (rerunEffect streaming wid
          (fetchStatusApply s (HttpResult.resolve true data))).1.timerActive
        = false := by
    unfold rerunEffect effectBody effectCleanup
    split <;> simp_all
  exact ⟨hpoll, htimer, by simp [timerTick, htimer]⟩

/-- Witness for C1 on a concrete completed snapshot. -/
theorem c1_witness :
    (fetchStatusApply initialExecutorState
        (HttpResult.resolve true wsCompleted)).polling = false ∧
    ((rerunEffect false "wf_1"
        (fetchStatusApply initialExecutorState
          (HttpResult.resolve true wsCompleted))).1.timerActive = false) ∧
    timerTick "wf_1"
        (rerunEffect false "wf_1"
          (fetchStatusApply initialExecutorState
            (HttpResult.resolve true wsCompleted))).1 = [] :=
  c1_terminal_status_settles_polling initialExecutorState wsCompleted
    false "wf_1" (Or.inl rfl)

/-- A step definition as passed through the component props schema
(`WorkflowExecutorPropsSchema.steps`). -/
structure PropStep where
  index : Nat
  type : String
  title : String
  description : Option String
  status : Option String
  deriving Repr, DecidableEq

/-- Lines 169–175: an initial prop step becomes a `StepStatus` whose
status defaults to `'pending'` when the prop status is absent or
falsy. -/
def mapInitialStep (p : PropStep) : StepStatus :=
  { index := p.index
    type := p.type
    title := p.title
    description := p.description
    status := jsOrStr p.status "pending"
    error := none
    durationMs := none
    hasOutput := none }

/-- Lines 168–176: `workflowStatus?.steps || initialSteps?.map(...) ||
[]`. A cached snapshot always wins (an array, even empty, is truthy in
JavaScript); otherwise the mapped initial steps; otherwise the empty
list. -/
def deriveSteps (ws : Option WorkflowStatus)
    (initialSteps : Option (List PropStep)) : List StepStatus :=
  match ws with
  | some w => w.steps
  | none =>
      match initialSteps with
      | some ps => ps.map mapInitialStep
      | none => []

/-- Line 181: number of steps whose status is `'completed'`. -/
def completedCount (steps : List StepStatus) : Nat :=
  (steps.filter (fun s => s.status == "completed")).length

/-- Lines 182 and 272: the executor's progress header, as the pair
(displayed step number, displayed total). The displayed step number is
`Math.min(completedCount + 1, totalSteps)` where `totalSteps` is the
length of the derived steps list. -/
def executorHeader (ws : Option WorkflowStatus)
    (initialSteps : Option (List PropStep)) : Nat × Nat :=
  (min (completedCount (deriveSteps ws initialSteps) + 1)
      (deriveSteps ws initialSteps).length,
    (deriveSteps ws initialSteps).length)

/-- A workflow summary card in the library view
(`WorkflowLibraryPropsSchema.workflows` element). -/
structure ReportRef where
  id : String
  title : String
  deriving Repr, DecidableEq

/-- One entry of the library view's workflow list. -/
structure WorkflowSummary where
  id : String
  title : String
  description : Option String
  query : String
  status : String
  currentStep : Nat
  totalSteps : Nat
  sources : List String
  outputFormat : String
  errorMessage : Option String
  createdAt : String
  completedAt : Option String
  report : Option ReportRef
  deriving Repr, DecidableEq

/-- WorkflowLibrary.tsx line 273: the active-workflow card header
`Step {workflow.currentStep + 1} of {workflow.totalSteps}`. -/
def libraryHeader (w : WorkflowSummary) : Nat × Nat :=
  (w.currentStep + 1, w.totalSteps)

/-- A pending step used to build concrete snapshots. -/
def pendingStep (i : Nat) (t : String) : StepStatus :=
  { index := i
    type := t
    title := t
    description := none
    status := "pending"
    error := none
    durationMs := none
    hasOutput := none }

/-- A completed step used to build concrete snapshots. -/
def completedStep (i : Nat) (t : String) : StepStatus :=
  { index := i
    type := t
    title := t
    description := none
    status := "completed"
    error := none
    durationMs := none
    hasOutput := some true }

/-- A snapshot with `currentStep = 2`, `totalSteps = 5` whose five
steps are all still pending: the executor header ignores
`currentStep`, so it shows step 1, not 3. -/
def cexStatus : WorkflowStatus :=
  { workflowId := "wf_1"
    title := "Research Workflow"
    description := none
    query := "q"
    status := "running"
    currentStep := 2
    totalSteps := 5
    progress := 40
    steps :=
      [pendingStep 0 "search", pendingStep 1 "extract",
        pendingStep 2 "analyze", pendingStep 3 "aggregate",
        pendingStep 4 "generate_report"]
    outputFormat := none
    errorMessage := none
    failedStep := none
    reportId := none
    reportTitle := none
    createdAt := "2026-01-01T00:00:00Z"
    completedAt := none }

/-- C2 counterexample: a payload with `totalSteps = 5` and
`currentStep = 2` for which the executor's progress header displays
step 1, not `currentStep + 1 = 3` — the executor derives the displayed
step from the count of completed steps, never from `currentStep`. -/
theorem c2_counterexample_header_ignores_currentStep :
    cexStatus.totalSteps = 5 ∧ cexStatus.currentStep = 2 ∧
    executorHeader (some cexStatus) none = (1, 5) ∧
    (executorHeader (some cexStatus) none).1 ≠ cexStatus.currentStep + 1 := by
  refine ⟨rfl, rfl, ?_, ?_⟩ <;> decide

/-- C2 amended: the executor header shows
`min(completedCount + 1, steps.length)` of `steps.length`; it equals
"3 of 5" exactly when the snapshot carries five steps of which exactly
two are completed, independently of `currentStep`. The library card,
by contrast, does display `currentStep + 1` of `totalSteps`, hence
"3 of 5" for a summary with `currentStep = 2` and `totalSteps = 5`. -/
theorem c2_amended_step_headers (ws : WorkflowStatus)
    (init : Option (List PropStep)) (w : WorkflowSummary)
    (h1 : ws.steps.length = 5) (h2 : completedCount ws.steps = 2)
    (h3 : w.currentStep = 2) (h4 : w.totalSteps = 5) :
    executorHeader (some ws) init = (3, 5) ∧ libraryHeader w = (3, 5) := by
  constructor
  · simp [executorHeader, deriveSteps, h1, h2]
  · simp [libraryHeader, h3, h4]

/-- A snapshot with five steps of which exactly two are completed. -/
def ws2of5 : WorkflowStatus :=
  { cexStatus with
    steps :=
      [completedStep 0 "search", completedStep 1 "extract",
        pendingStep 2 "analyze", pendingStep 3 "aggregate",
        pendingStep 4 "generate_report"] }

/-- A library summary at step index 2 of 5. -/
def summary2of5 : WorkflowSummary :=
  { id := "wf_1"
    title := "Research Workflow"
    description := none
    query := "q"
    status := "running"
    currentStep := 2
    totalSteps := 5
    sources := ["google"]
    outputFormat := "comparison"
    errorMessage := none
    createdAt := "2026-01-01T00:00:00Z"
    completedAt := none
    report := none }

/-- Witness for the amended C2 on concrete payloads. -/
theorem c2_amended_witness :
    executorHeader (some ws2of5) none = (3, 5) ∧
    libraryHeader summary2of5 = (3, 5) :=
  c2_amended_step_headers ws2of5 none summary2of5
    (by decide) (by decide) (by decide) (by decide)

/-- Resolution-order application of a sequence of fetch results: the
component applies each response as it resolves, via `fetchStatus`'s
then/catch, with no sequencing guard. -/
def applyResponses (s : ExecutorState)
    (rs : List (HttpResult WorkflowStatus)) : ExecutorState :=
  rs.foldl fetchStatusApply s

/-- The snapshot carried by a first-issued, later-resolving request. -/
def wsEarlier : WorkflowStatus := { cexStatus with progress := 25 }

/-- The snapshot carried by a later-issued, earlier-resolving
request. -/
def wsLater : WorkflowStatus := { cexStatus with progress := 50 }

/-- C7 counterexample: requests issued in order A then B, resolving in
order B then A, leave the cache holding A's payload — the payload of
the most-recently-resolved response, not of the most-recently-issued
request; `fetchStatus` has no guard discarding older responses. -/
theorem c7_counterexample_stale_overwrite :
    (applyResponses initialExecutorState
        [HttpResult.resolve true wsLater,
          HttpResult.resolve true wsEarlier]).workflowStatus
      = some wsEarlier ∧
    wsEarlier ≠ wsLater := by
  refine ⟨rfl, ?_⟩ ; decide

/-- C7 amended: responses are applied in resolution order with
last-writer-wins semantics — after any sequence of earlier results,
the cached snapshot is the payload of the last successfully resolved
response, regardless of issue order. -/
theorem c7_amended_last_resolved_wins (s : ExecutorState)
    (rs : List (HttpResult WorkflowStatus)) (data : WorkflowStatus) :
    (applyResponses s
        (rs ++ [HttpResult.resolve true data])).workflowStatus
      = some data := by
  unfold applyResponses
  rw [List.foldl_append]
  rfl

/-- The lucide-react icons the step list renders with. -/
inductive Icon where
  | searchIcon
  | filterIcon
  | brainIcon
  | layersIcon
  | fileTextIcon
  | loaderIcon
  | checkCircle2Icon
  | xCircleIcon
  | clockIcon
  deriving Repr, DecidableEq

/-- Lines 76–82: the `stepIcons` record, a partial map from step type
to icon. -/
def stepIcons (t : String) : Option Icon :=
  if t == "search" then some Icon.searchIcon
  else if t == "extract" then some Icon.filterIcon
  else if t == "analyze" then some Icon.brainIcon
  else if t == "aggregate" then some Icon.layersIcon
  else if t == "generate_report" then some Icon.fileTextIcon
  else none

/-- Line 294: `stepIcons[step.type] || FileText`. -/
def stepIconFor (t : String) : Icon :=
  (stepIcons t).getD Icon.fileTextIcon

/-- One entry of the `statusIcons` record: icon, color class, optional
animation class. -/
structure StatusInfo where
  icon : Icon
  color : String
  animate : Option String
  deriving Repr, DecidableEq

/-- Lines 94–99: the `statusIcons` record. -/
def statusIcons (st : String) : Option StatusInfo :=
  if st == "pending" then
    some { icon := Icon.clockIcon, color := "text-gray-400", animate := none }
  else if st == "running" then
    some { icon := Icon.loaderIcon, color := "text-blue-600",
           animate := some "animate-spin" }
  else if st == "completed" then
    some { icon := Icon.checkCircle2Icon, color := "text-green-600",
           animate := none }
  else if st == "failed" then
    some { icon := Icon.xCircleIcon, color := "text-red-600",
           animate := none }
  else none

/-- Line 295: `statusIcons[step.status] || statusIcons.pending`. -/
def statusInfoFor (st : String) : StatusInfo :=
  (statusIcons st).getD
    { icon := Icon.clockIcon, color := "text-gray-400", animate := none }

/-- Lines 293–297: the per-row affordance selection, a total pure
function of the (type, status) pair. -/
def stepAffordance (t st : String) : Icon × StatusInfo :=
  (stepIconFor t, statusInfoFor st)

/-- The step-type vocabulary that `stepIcons` knows. -/
def knownStepTypes : List String :=
  ["search", "extract", "analyze", "aggregate", "generate_report"]

/-- C8: for a step type outside the known vocabulary the renderer
selects the generic FileText icon, and the affordance selection stays
a total mapping over (type, status) — it never fails or yields
nothing. -/
theorem c8_unknown_type_falls_back_to_fileText (t st : String)
    (h : t ∉ knownStepTypes) :
    stepIconFor t = Icon.fileTextIcon ∧
    stepAffordance t st = (Icon.fileTextIcon, statusInfoFor st) := by
  simp only [knownStepTypes, List.mem_cons, List.not_mem_nil, or_false,
    not_or] at h
  obtain ⟨h1, h2, h3, h4, h5⟩ := h
  have hicon : stepIconFor t = Icon.fileTextIcon := by
    simp [stepIconFor, stepIcons, h1, h2, h3, h4, h5]
  exact ⟨hicon, by simp [stepAffordance, hicon]⟩

/-- Witness for C8 on the unknown step type `screenshot`. -/
theorem c8_witness :
    stepIconFor "screenshot" = Icon.fileTextIcon ∧
    stepAffordance "screenshot" "running"
      = (Icon.fileTextIcon, statusInfoFor "running") :=
  c8_unknown_type_falls_back_to_fileText "screenshot" "running" (by decide)

/-- C3: the retry handler always issues the POST to
`/api/workflows/{id}/retry`; only when that POST resolves does it set
`polling` back to `true` (leaving the cached snapshot untouched) and
trigger one immediate status fetch, after which the effect re-run
reinstalls the interval timer; a rejected POST changes nothing and
issues no status fetch. -/
theorem c3_retry_dispatch_then_poll (wid : String) (s : ExecutorState)
    (h : wid ≠ "") :
    (handleRetry wid s true).1.polling = true ∧
    (handleRetry wid s true).1.workflowStatus = s.workflowStatus ∧
    (handleRetry wid s true).2 = [retryRequest wid, statusRequest wid] ∧
    (retryRequest wid).method = "POST" ∧
    (retryRequest wid).url = "/api/workflows/" ++ wid ++ "/retry" ∧
    (rerunEffect false wid (handleRetry wid s true).1).1.timerActive = true ∧
    (handleRetry wid s false).1 = s ∧
    (handleRetry wid s false).2 = [retryRequest wid] := by
  refine ⟨rfl, rfl, rfl, rfl, rfl, ?_, rfl, rfl⟩
  unfold rerunEffect effectBody effectCleanup handleRetry
  simp [h]

/-- Witness for C3 at workflow id `wf_1`, checking in particular that
the retry POST targets `/api/workflows/wf_1/retry`. -/
theorem c3_witness :
    (handleRetry "wf_1" initialExecutorState true).1.polling = true ∧
    (handleRetry "wf_1" initialExecutorState true).1.workflowStatus
      = initialExecutorState.workflowStatus ∧
    (handleRetry "wf_1" initialExecutorState true).2
      = [retryRequest "wf_1", statusRequest "wf_1"] ∧
    (retryRequest "wf_1").method = "POST" ∧
    (retryRequest "wf_1").url = "/api/workflows/" ++ "wf_1" ++ "/retry" ∧
    (rerunEffect false "wf_1"
        (handleRetry "wf_1" initialExecutorState true).1).1.timerActive
      = true ∧
    (handleRetry "wf_1" initialExecutorState false).1
      = initialExecutorState ∧
    (handleRetry "wf_1" initialExecutorState false).2
      = [retryRequest "wf_1"] :=
  c3_retry_dispatch_then_poll "wf_1" initialExecutorState (by decide)

/-- C4: the cancel handler never mutates the component state — the
`polling` flag and the cached snapshot are exactly what they were — it
only issues the cancel POST and, when the POST resolves, one immediate
status re-fetch; a rejected POST is merely logged; hence running the
handler twice in any resolution combination still leaves the state
untouched. -/
theorem c4_cancel_is_frame_preserving (wid : String) (s : ExecutorState)
    (b1 b2 : Bool) :
    (handleCancel wid s b1).1 = s ∧
    (handleCancel wid s b1).1.polling = s.polling ∧
    (handleCancel wid s b1).1.workflowStatus = s.workflowStatus ∧
    (handleCancel wid s b1).1.error = s.error ∧
    (handleCancel wid s true).2 = [cancelRequest wid, statusRequest wid] ∧
    (handleCancel wid s false).2 = [cancelRequest wid] ∧
    (handleCancel wid (handleCancel wid s b1).1 b2).1 = s := by
  cases b1 <;> cases b2 <;> exact ⟨rfl, rfl, rfl, rfl, rfl, rfl, rfl⟩

/-- C5: while the generation stream has settled neither in success nor
in error, or while the workflow id is empty, the polling effect does
nothing: the state (including the timer) is untouched and no status
request is issued. -/
theorem c5_no_poll_while_streaming_or_empty_id (st : StreamStatus)
    (wid : String) (s : ExecutorState)
    (h : isStreaming st = true ∨ wid = "") :
    effectBody (isStreaming st) wid s = (s, []) := by
  unfold effectBody
  rcases h with h | h <;> simp [h]

/-- Witness for C5: a stream that reports neither success nor error is
still streaming, and the effect issues nothing. -/
theorem c5_witness :
    effectBody (isStreaming { isSuccess := false, isError := false })
        "wf_1" initialExecutorState = (initialExecutorState, []) :=
  c5_no_poll_while_streaming_or_empty_id
    { isSuccess := false, isError := false } "wf_1" initialExecutorState
    (Or.inl rfl)

/-- The React state of one `WorkflowLibrary` instance: the cached
workflow list, the `loading` flag, and the two refs guarding the
mount-time load (`hasLoadedRef`, `isLoadingRef`). -/
structure LibraryState where
  workflows : List WorkflowSummary
  loading : Bool
  hasLoaded : Bool
  isLoading : Bool
  deriving Repr, DecidableEq

/-- `GET /api/workflows`. -/
def listRequest : Request :=
  { method := "GET", url := "/api/workflows" }

/-- Initial library state (lines 109–117): the prop list (or `[]`),
`loading` false, both refs false. -/
def initialLibraryState (ws : List WorkflowSummary) : LibraryState :=
  { workflows := ws, loading := false, hasLoaded := false,
    isLoading := false }

/-- `loadWorkflows` (lines 132–152), synchronous prefix: bail out
immediately — no state change, no request — when a load is already in
flight; otherwise mark the load in flight, set `loading`, and issue
the single GET. -/
def loadWorkflowsStart (s : LibraryState) : LibraryState × List Request :=
  if s.isLoading then (s, [])
  else ({ s with isLoading := true, loading := true }, [listRequest])

/-- `loadWorkflows`, completion: an ok response replaces the cached
list with `data.workflows || []` and marks `hasLoadedRef`; a non-ok
response changes neither; a rejection is logged. The `finally` block
always clears `loading` and the in-flight ref. -/
def loadWorkflowsFinish (s : LibraryState)
    (r : HttpResult (Option (List WorkflowSummary))) : LibraryState :=
  let s1 :=
    match r with
    | .resolve true body =>
        { s with workflows := body.getD [], hasLoaded := true }
    | .resolve false _ => s
    | .reject _ => s
  { s1 with loading := false, isLoading := false }

/-- The mount effect (lines 126–130): trigger the load only when
neither `hasLoadedRef` nor `isLoadingRef` is set. -/
def mountEffect (s : LibraryState) : LibraryState × List Request :=
  if !s.hasLoaded && !s.isLoading then loadWorkflowsStart s else (s, [])

/-- `handleDeleteWorkflow` (lines 159–171): only an ok DELETE response
filters the workflow out of the cached list; a non-ok response or a
rejected fetch leaves the list exactly as it was. -/
def handleDeleteWorkflow (s : LibraryState) (wid : String)
    (r : HttpResult Unit) : LibraryState :=
  match r with
  | .resolve true _ =>
      { s with workflows := s.workflows.filter (fun w => w.id != wid) }
  | .resolve false _ => s
  | .reject _ => s

/-- C6: after a successful DELETE, a workflow remains cached exactly
when it was cached before and is not the deleted one; a non-2xx
response or a rejected request leaves the whole state — in particular
the displayed list — unchanged. -/
theorem c6_delete_only_after_success (s : LibraryState) (wid msg : String)
    (w : WorkflowSummary) :
    (w ∈ (handleDeleteWorkflow s wid (HttpResult.resolve true ())).workflows
      ↔ (w ∈ s.workflows ∧ w.id ≠ wid)) ∧
    handleDeleteWorkflow s wid (HttpResult.resolve false ()) = s ∧
    handleDeleteWorkflow s wid (HttpResult.reject msg) = s := by
  refine ⟨?_, rfl, rfl⟩
  simp [handleDeleteWorkflow, List.mem_filter]

/-- C9: a load requested while one is in flight is a pure no-op — same
state, no request issued; the mount effect on a fresh instance starts
exactly one load with the single GET to `/api/workflows`; and
immediately after a load starts, a second start is such a no-op, so at
most one list-load is in flight at a time. -/
theorem c9_single_inflight_load (s : LibraryState)
    (ws : List WorkflowSummary) (h : s.isLoading = true) :
    loadWorkflowsStart s = (s, []) ∧
    mountEffect (initialLibraryState ws)
      = ({ initialLibraryState ws with isLoading := true, loading := true },
          [listRequest]) ∧
    loadWorkflowsStart (loadWorkflowsStart (initialLibraryState ws)).1
      = ((loadWorkflowsStart (initialLibraryState ws)).1, []) := by
    refine ⟨?_, rfl, rfl⟩
    simp [loadWorkflowsStart, h]

/-- Witness for C9: with a load in flight, a second start changes
nothing and issues nothing. -/
theorem c9_witness :
    loadWorkflowsStart
        { initialLibraryState [] with isLoading := true, loading := true }
      = ({ initialLibraryState [] with isLoading := true, loading := true },
          []) ∧
    mountEffect (initialLibraryState [])
      = ({ initialLibraryState [] with isLoading := true, loading := true },
          [listRequest]) ∧
    loadWorkflowsStart (loadWorkflowsStart (initialLibraryState [])).1
      = ((loadWorkflowsStart (initialLibraryState [])).1, []) :=
  c9_single_inflight_load
    { initialLibraryState [] with isLoading := true, loading := true }
    [] rfl

/-- Which of the executor's three top-level screens is rendered. -/
inductive View where
  | streamingView
  | errorView
  | mainUI
  deriving Repr, DecidableEq

/-- JavaScript truthiness of the `error` state: `null` and `""` are
falsy. -/
def errTruthy (e : Option String) : Bool :=
  match e with
  | none => false
  | some m => m != ""

/-- Lines 185–214: the component renders the streaming placeholder
while streaming, the dedicated error screen only when `error` is
truthy and no snapshot is cached (`error && !workflowStatus`), and the
full workflow UI otherwise. -/
def renderView (streaming : Bool) (s : ExecutorState) : View :=
  if streaming then View.streamingView
  else if errTruthy s.error && s.workflowStatus.isNone then View.errorView
  else View.mainUI

/-- The events that can mutate an executor instance's state after
mount: a fetch result being applied, a retry or cancel handler firing
(with the resolution of its POST), an effect re-run after a dependency
change, and toggling a step's expansion. -/
inductive Event where
  | fetchResult (r : HttpResult WorkflowStatus)
  | retryAction (wid : String) (postResolved : Bool)
  | cancelAction (wid : String) (postResolved : Bool)
  | effectDepsChanged (streaming : Bool) (wid : String)
  | toggleStep (i : Option Nat)
  deriving Repr, DecidableEq

/-- State transition of the executor under one event. -/
def stepEvent (s : ExecutorState) : Event → ExecutorState
  | .fetchResult r => fetchStatusApply s r
  | .retryAction wid b => (handleRetry wid s b).1
  | .cancelAction wid b => (handleCancel wid s b).1
  | .effectDepsChanged streaming wid => (rerunEffect streaming wid s).1
  | .toggleStep i => { s with expandedStep := i }

/-- State after a sequence of events. -/
def runEvents (s : ExecutorState) (es : List Event) : ExecutorState :=
  es.foldl stepEvent s

/-- No event ever discards a cached snapshot: every transition either
overwrites it with a fresh snapshot or leaves it in place. -/
theorem stepEvent_keeps_cached_status (s : ExecutorState) (e : Event)
    (h : s.workflowStatus.isSome = true) :
    (stepEvent s e).workflowStatus.isSome = true := by
  cases e with
  | fetchResult r =>
      cases r with
      | reject m => simpa [stepEvent, fetchStatusApply] using h
      | resolve ok data =>
          cases ok
          · simpa [stepEvent, fetchStatusApply] using h
          · simp [stepEvent, fetchStatusApply]
  | retryAction wid b =>
      cases b <;> simpa [stepEvent, handleRetry] using h
  | cancelAction wid b =>
      cases b <;> simpa [stepEvent, handleCancel] using h
  | effectDepsChanged streaming wid =>
      simp only [stepEvent, rerunEffect, effectBody, effectCleanup]
      split <;> simpa using h
  | toggleStep i => simpa [stepEvent] using h

/-- A cached snapshot survives any sequence of events. -/
theorem runEvents_keeps_cached_status (es : List Event)
    (s : ExecutorState) (h : s.workflowStatus.isSome = true) :
    (runEvents s es).workflowStatus.isSome = true := by
  induction es generalizing s with
  | nil => exact h
  | cons e es ih =>
      exact ih (stepEvent s e) (stepEvent_keeps_cached_status s e h)

/-- C10: once a snapshot is cached, no sequence of later events — in
particular no run of failed fetches — can bring the error-only screen
back: the cache stays populated and the non-streaming render is the
full workflow UI; moreover the next successful fetch resets the error
to `null`. -/
theorem c10_cached_status_blocks_error_view (s : ExecutorState)
    (es : List Event) (data : WorkflowStatus)
    (h : s.workflowStatus.isSome = true) :
    (runEvents s es).workflowStatus.isSome = true ∧
    renderView false (runEvents s es) = View.mainUI ∧
    (runEvents s
        (es ++ [Event.fetchResult (HttpResult.resolve true data)])).error
      = none := by
  have hs := runEvents_keeps_cached_status es s h
  refine ⟨hs, ?_, ?_⟩
  · rcases Option.isSome_iff_exists.mp hs with ⟨w, hw⟩
    simp [renderView, hw]
  · unfold runEvents
    rw [List.foldl_append]
    rfl

/-- A state that has already cached one snapshot. -/
def cachedState : ExecutorState :=
  { initialExecutorState with workflowStatus := some ws2of5 }

/-- Witness for C10: after a rejected fetch, a non-ok fetch and a
cancel, the view with a cached snapshot is still the full UI, and a
following successful fetch clears the error. -/
theorem c10_witness :
    (runEvents cachedState
        [Event.fetchResult (HttpResult.reject "network down"),
          Event.fetchResult (HttpResult.resolve false wsCompleted),
          Event.cancelAction "wf_1" false]).workflowStatus.isSome = true ∧
    renderView false
        (runEvents cachedState
          [Event.fetchResult (HttpResult.reject "network down"),
            Event.fetchResult (HttpResult.resolve false wsCompleted),
            Event.cancelAction "wf_1" false]) = View.mainUI ∧
    (runEvents cachedState
        ([Event.fetchResult (HttpResult.reject "network down"),
            Event.fetchResult (HttpResult.resolve false wsCompleted),
            Event.cancelAction "wf_1" false] ++
          [Event.fetchResult (HttpResult.resolve true wsCompleted)])).error
      = none :=
  c10_cached_status_blocks_error_view cachedState
    [Event.fetchResult (HttpResult.reject "network down"),
      Event.fetchResult (HttpResult.resolve false wsCompleted),
      Event.cancelAction "wf_1" false]
    wsCompleted rfl

end WorkflowTracker
